import Mathlib

/-!
Verification of the two AWS Lambda handlers of this repository:
`src/modules/lambda/python/src/gamelift_handler.py` (the Fleet Handler) and
`src/modules/lambda/python/src/handler.py` (the Demo Handler).

The Python code is shallowly embedded:

* `PyVal` models the Python values that can occur in a Lambda event body
  (the JSON-like fragment: `None`, booleans, integers, strings, lists, dicts).
* `jsonLoads` models `json.loads` on that fragment (objects, arrays, strings
  with the common escapes, integer numerals, `null`/`true`/`false`); a parse
  failure models `json.JSONDecodeError`.  Fractional numbers and `\u` escapes
  are outside the fragment exercised here and are rejected by the model.
* A `Response` keeps the body as the structured value handed to `json.dumps`;
  the pretty-printed serialization itself is abstracted away, so claims about
  body fields are stated on that structure.
* The boto3 GameLift client is an explicit record of the two remote calls the
  code performs; `ClientError` and generic exceptions raised by a remote call
  are the two `AwsError` cases.  Handlers additionally return the list of
  remote calls they issued.
* A Python exception escaping the handler (e.g. `AttributeError` from calling
  `.get` on a non-dict) is modelled by `Except PyExn`.
-/

/-- Python values of the JSON-like fragment that can appear in an event body. -/
inductive PyVal where
  | none : PyVal
  | bool : Bool → PyVal
  | int : Int → PyVal
  | str : String → PyVal
  | list : List PyVal → PyVal
  | dict : List (String × PyVal) → PyVal

/-- The opening-brace character. -/
def lbrace : Char := Char.ofNat 123

/-- The closing-brace character. -/
def rbrace : Char := Char.ofNat 125

/-- JSON whitespace, as accepted by `json.loads`. -/
def isWs (c : Char) : Bool := c = ' ' || c = '\t' || c = '\n' || c = '\r'

/-- Drop leading JSON whitespace. -/
def skipWs : List Char → List Char
  | [] => []
  | c :: cs => if isWs c then skipWs cs else c :: cs

/-- Parse the remainder of a JSON string literal (the opening quote already
consumed), handling the common escapes. -/
def parseStringLit : List Char → Option (String × List Char)
  | [] => Option.none
  | c :: cs =>
    if c = '"' then Option.some ("", cs)
    else if c = '\\' then
      match cs with
      | [] => Option.none
      | e :: cs2 =>
        let esc : Option Char :=
          if e = '"' then Option.some '"'
          else if e = '\\' then Option.some '\\'
          else if e = '/' then Option.some '/'
          else if e = 'n' then Option.some '\n'
          else if e = 't' then Option.some '\t'
          else if e = 'r' then Option.some '\r'
          else Option.none
        match esc with
        | Option.some ch =>
          match parseStringLit cs2 with
          | Option.some (s, r) => Option.some (String.mk (ch :: s.toList), r)
          | Option.none => Option.none
        | Option.none => Option.none
    else
      match parseStringLit cs with
      | Option.some (s, r) => Option.some (String.mk (c :: s.toList), r)
      | Option.none => Option.none

/-- Parse a run of decimal digits. -/
def parseDigits : List Char → List Char × List Char
  | [] => ([], [])
  | c :: cs =>
    if c.isDigit then
      let (ds, r) := parseDigits cs
      (c :: ds, r)
    else ([], c :: cs)

/-- Numeric value of a digit run. -/
def digitsToNat : List Char → Nat
  | [] => 0
  | c :: cs => digitsToNat cs + c.toNat.sub 48 * 10 ^ cs.length

mutual

/-- Fueled recursive-descent parser for one JSON value; models `json.loads`
on the fragment described at the top of the file. -/
def parseVal : Nat → List Char → Option (PyVal × List Char)
  | 0, _ => Option.none
  | Nat.succ fuel, cs =>
    match skipWs cs with
    | [] => Option.none
    | c :: rest =>
      if c = '"' then
        match parseStringLit rest with
        | Option.some (s, r) => Option.some (PyVal.str s, r)
        | Option.none => Option.none
      else if c = lbrace then parseObjItems fuel true rest
      else if c = '[' then parseArrItems fuel true rest
      else if c = '-' then
        match parseDigits rest with
        | ([], _) => Option.none
        | (ds, r) => Option.some (PyVal.int (-(digitsToNat ds : Int)), r)
      else if c.isDigit then
        match parseDigits (c :: rest) with
        | ([], _) => Option.none
        | (ds, r) => Option.some (PyVal.int (digitsToNat ds : Int), r)
      else
        match c :: rest with
        | 'n' :: 'u' :: 'l' :: 'l' :: r => Option.some (PyVal.none, r)
        | 't' :: 'r' :: 'u' :: 'e' :: r => Option.some (PyVal.bool true, r)
        | 'f' :: 'a' :: 'l' :: 's' :: 'e' :: r => Option.some (PyVal.bool false, r)
        | _ => Option.none

/-- Parse the items of a JSON array (opening bracket already consumed);
`first` records whether no item has been read yet. -/
def parseArrItems : Nat → Bool → List Char → Option (PyVal × List Char)
  | 0, _, _ => Option.none
  | Nat.succ fuel, first, cs =>
    match skipWs cs with
    | [] => Option.none
    | c :: rest =>
      if c = ']' ∧ first then Option.some (PyVal.list [], rest)
      else
        match parseVal fuel (c :: rest) with
        | Option.none => Option.none
        | Option.some (v, r) =>
          match skipWs r with
          | ',' :: r2 =>
            match parseArrItems fuel false r2 with
            | Option.some (PyVal.list vs, r3) => Option.some (PyVal.list (v :: vs), r3)
            | _ => Option.none
          | ']' :: r2 => Option.some (PyVal.list [v], r2)
          | _ => Option.none

/-- Parse the members of a JSON object (opening brace already consumed);
`first` records whether no member has been read yet. -/
def parseObjItems : Nat → Bool → List Char → Option (PyVal × List Char)
  | 0, _, _ => Option.none
  | Nat.succ fuel, first, cs =>
    match skipWs cs with
    | [] => Option.none
    | c :: rest =>
      if c = rbrace ∧ first then Option.some (PyVal.dict [], rest)
      else if c = '"' then
        match parseStringLit rest with
        | Option.none => Option.none
        | Option.some (k, r) =>
          match skipWs r with
          | ':' :: r2 =>
            match parseVal fuel r2 with
            | Option.none => Option.none
            | Option.some (v, r3) =>
              match skipWs r3 with
              | ',' :: r4 =>
                match parseObjItems fuel false r4 with
                | Option.some (PyVal.dict kvs, r5) =>
                    Option.some (PyVal.dict ((k, v) :: kvs), r5)
                | _ => Option.none
              | c5 :: r5 =>
                if c5 = rbrace then Option.some (PyVal.dict [(k, v)], r5)
                else Option.none
              | _ => Option.none
          | _ => Option.none
      else Option.none

end

/-- Model of `json.loads` on the JSON fragment: parse one value and require
that only whitespace follows; `Except.error ()` models `json.JSONDecodeError`. -/
def jsonLoads (s : String) : Except Unit PyVal :=
  match parseVal (2 * s.length + 2) s.toList with
  | Option.some (v, rest) =>
      if (skipWs rest).isEmpty then Except.ok v else Except.error ()
  | Option.none => Except.error ()

/-! ## Runtime model: events, context, environment, responses -/

/-- The API Gateway event, keeping only the keys the handlers read:
`httpMethod`, `path` and `body`.  An absent key is `Option.none`; the code
supplies defaults via `event.get(key, default)`. -/
structure Event where
  httpMethod : Option String
  path : Option String
  body : Option PyVal

/-- The Lambda context; only `aws_request_id` is read (behind a `hasattr`
check, hence optional). -/
structure Context where
  aws_request_id : Option String

/-- The process environment: `ENVIRONMENT`, `PROJECT`, `AWS_REGION`
(`os.environ.get`, absent is `Option.none`). -/
structure Env where
  environment : Option String
  project : Option String
  aws_region : Option String

/-- Models the expression reading `context.aws_request_id` behind a
`hasattr` check, substituting the string N/A when the field is absent. -/
def timestampOf (ctx : Context) : String := ctx.aws_request_id.getD "N/A"

/-- An API Gateway response.  `body` is kept as the structured value the code
passes to `json.dumps`; the pretty-printed string serialization is abstracted. -/
structure Response where
  statusCode : Nat
  headers : List (String × String)
  body : PyVal

/-- The CORS/JSON header block shared by every response of both handlers
except `health_check`. -/
def corsHeaders : List (String × String) :=
  [("Content-Type", "application/json"),
   ("Access-Control-Allow-Origin", "*"),
   ("Access-Control-Allow-Headers", "Content-Type,X-Amz-Date,Authorization,X-Api-Key"),
   ("Access-Control-Allow-Methods", "GET,POST,OPTIONS")]

/-- A Python exception escaping a handler uncaught.  `attributeError` is
`AttributeError`, raised e.g. by calling `.get` on a non-dict value. -/
inductive PyExn where
  | attributeError : PyExn
deriving Repr, DecidableEq

/-- Model of `body_data.get(key, default)`: a dict lookup with default; on
any non-dict value Python raises `AttributeError` (no `.get` method). -/
def pyGetD (v : PyVal) (key : String) (dflt : PyVal) : Except PyExn PyVal :=
  match v with
  | PyVal.dict kvs => Except.ok ((kvs.lookup key).getD dflt)
  | _ => Except.error PyExn.attributeError

/-- Python truthiness on the modelled fragment (`if not fleet_id:`). -/
def pyTruthy : PyVal → Bool
  | PyVal.none => false
  | PyVal.bool b => b
  | PyVal.int n => n ≠ 0
  | PyVal.str s => s ≠ ""
  | PyVal.list xs => ¬ xs.isEmpty
  | PyVal.dict kvs => ¬ kvs.isEmpty

/-- Python `==` between a value and a string literal, as in the comparison
of `action` with the literal `list_fleets`: true exactly for the equal
string; any non-string value compares unequal. -/
def pyEqStr (v : PyVal) (t : String) : Bool :=
  match v with
  | PyVal.str s => s = t
  | _ => false

/-- Python `str()` on the modelled fragment, as interpolated by the f-string
`f"Unknown action: {action}"`.  Strings render as themselves (the only case
the handlers can reach with a message a claim inspects); containers render
via `repr`-style notation, close enough for the fragment. -/
def pyStr : PyVal → String
  | PyVal.none => "None"
  | PyVal.bool b => if b then "True" else "False"
  | PyVal.int n => toString n
  | PyVal.str s => s
  | PyVal.list _ => "[...]"
  | PyVal.dict _ => String.mk [lbrace] ++ "..." ++ String.mk [rbrace]

/-! ## Remote GameLift client model -/

/-- Failure of a remote GameLift call: `clientError` is a botocore
`ClientError` carrying the Error Code and Error Message fields of its
response; `otherExn` is any other exception, carrying its `str(e)` form. -/
inductive AwsError where
  | clientError : String → String → AwsError
  | otherExn : String → AwsError

/-- A `datetime` value; only `isoformat()` is called on it. -/
structure DateTimeV where
  iso : String

/-- Model of `datetime.isoformat()`. -/
def DateTimeV.isoformat (d : DateTimeV) : String := d.iso

/-- A fleet-attributes record as returned by `describe_fleet_attributes`,
restricted to the keys `convert_fleet_to_dict` projects (each key optional,
as `fleet.get(...)` treats it). -/
structure Fleet where
  FleetId : Option String
  FleetArn : Option String
  FleetType : Option String
  EC2InstanceType : Option String
  BuildId : Option String
  Status : Option String
  Description : Option String
  Name : Option String
  CreationTime : Option DateTimeV
  TerminationTime : Option DateTimeV

/-- Result of a successful `list_fleets()` call: `FleetIds` (default `[]`)
and optional `NextToken`. -/
structure ListFleetsResult where
  FleetIds : List String
  NextToken : Option String

/-- The boto3 GameLift client, as the two remote calls the code performs.
`describe_fleet_attributes` takes the `fleet_id` value as-is (like
`FleetIds=[fleet_id]` would). -/
structure GameLiftClient where
  list_fleets : Except AwsError ListFleetsResult
  describe_fleet_attributes : PyVal → Except AwsError (List Fleet)

/-- One remote call issued during an invocation (for stating that a path
performs no remote call). -/
inductive RemoteCall where
  | listFleets : RemoteCall
  | describeFleetAttributes : PyVal → RemoteCall

/-- An optional string as a Python value (`None` when absent). -/
def optStrVal : Option String → PyVal
  | Option.some s => PyVal.str s
  | Option.none => PyVal.none

/-! ## Body parsing shared by the POST branches of both handlers

Both `gamelift_handler.lambda_handler` and `handler.lambda_handler` contain
the identical snippet: read `body` from the event (defaulting to the
two-character JSON text of an empty object), apply `json.loads` when it is a
string (keeping it as-is otherwise), and fall back to an empty dict when
`json.JSONDecodeError` is raised.
-/

/-- The `body_data` value computed by the POST branch of either handler. -/
def bodyDataOf (event : Event) : PyVal :=
  match event.body.getD (PyVal.str "\x7b\x7d") with
  | PyVal.str s =>
      match jsonLoads s with
      | Except.ok v => v
      | Except.error _ => PyVal.dict []
  | v => v

namespace gamelift_handler

/-- Model of `create_error_response` in `gamelift_handler.py`: the uniform
error envelope; `details` is added only when truthy (`if details:`). -/
def create_error_response (status_code : Nat) (message : String)
    (details : Option String) (ctx : Context) : Response :=
  let error_body : List (String × PyVal) :=
    [("status", PyVal.str "error"),
     ("message", PyVal.str message),
     ("timestamp", PyVal.str (timestampOf ctx))]
  let error_body :=
    match details with
    | Option.some d => if d ≠ "" then error_body ++ [("details", PyVal.str d)] else error_body
    | Option.none => error_body
  { statusCode := status_code, headers := corsHeaders, body := PyVal.dict error_body }

/-- Model of `convert_fleet_to_dict` in `gamelift_handler.py`. -/
def convert_fleet_to_dict (fleet : Fleet) : PyVal :=
  PyVal.dict
    [("FleetId", optStrVal fleet.FleetId),
     ("FleetArn", optStrVal fleet.FleetArn),
     ("FleetType", optStrVal fleet.FleetType),
     ("EC2InstanceType", optStrVal fleet.EC2InstanceType),
     ("BuildId", optStrVal fleet.BuildId),
     ("Status", optStrVal fleet.Status),
     ("Description", optStrVal fleet.Description),
     ("Name", optStrVal fleet.Name),
     ("CreationTime",
       match fleet.CreationTime with
       | Option.some d => PyVal.str d.isoformat
       | Option.none => PyVal.none),
     ("TerminationTime",
       match fleet.TerminationTime with
       | Option.some d => PyVal.str d.isoformat
       | Option.none => PyVal.none)]

/-- Model of `handle_list_fleets` in `gamelift_handler.py`; also returns
the remote calls issued. -/
def handle_list_fleets (gamelift_client : GameLiftClient) (ctx : Context) :
    Response × List RemoteCall :=
  match gamelift_client.list_fleets with
  | Except.ok response =>
      let fleet_ids := response.FleetIds
      let next_token := response.NextToken
      ({ statusCode := 200,
         headers := corsHeaders,
         body := PyVal.dict
           [("status", PyVal.str "success"),
            ("operation", PyVal.str "list_fleets"),
            ("fleet_count", PyVal.int fleet_ids.length),
            ("fleets", PyVal.list (fleet_ids.map PyVal.str)),
            ("next_token", optStrVal next_token),
            ("timestamp", PyVal.str (timestampOf ctx))] },
       [RemoteCall.listFleets])
  | Except.error (AwsError.clientError error_code error_message) =>
      (create_error_response 500 ("GameLift API error: " ++ error_code)
        (Option.some error_message) ctx,
       [RemoteCall.listFleets])
  | Except.error (AwsError.otherExn e) =>
      (create_error_response 500 "Unexpected error listing fleets"
        (Option.some e) ctx,
       [RemoteCall.listFleets])

/-- Model of `handle_describe_fleet` in `gamelift_handler.py`; also returns
the remote calls issued. -/
def handle_describe_fleet (gamelift_client : GameLiftClient) (fleet_id : PyVal)
    (ctx : Context) : Response × List RemoteCall :=
  match gamelift_client.describe_fleet_attributes fleet_id with
  | Except.ok fleet_attributes =>
      (match fleet_attributes with
       | [] =>
           create_error_response 404 ("Fleet not found: " ++ pyStr fleet_id)
             Option.none ctx
       | fleet :: _ =>
           { statusCode := 200,
             headers := corsHeaders,
             body := PyVal.dict
               [("status", PyVal.str "success"),
                ("operation", PyVal.str "describe_fleet"),
                ("fleet", convert_fleet_to_dict fleet),
                ("timestamp", PyVal.str (timestampOf ctx))] },
       [RemoteCall.describeFleetAttributes fleet_id])
  | Except.error (AwsError.clientError error_code error_message) =>
      (create_error_response 500 ("GameLift API error: " ++ error_code)
        (Option.some error_message) ctx,
       [RemoteCall.describeFleetAttributes fleet_id])
  | Except.error (AwsError.otherExn e) =>
      (create_error_response 500 "Unexpected error describing fleet"
        (Option.some e) ctx,
       [RemoteCall.describeFleetAttributes fleet_id])

/-- Model of `lambda_handler` in `gamelift_handler.py`.  `clientInit` is the
outcome of the `boto3.client` construction (`Except.error` carries `str(e)`
of a raised exception).  The result is `Except.error` when a Python exception
escapes the handler uncaught. -/
def lambda_handler (env : Env) (clientInit : Except String GameLiftClient)
    (event : Event) (ctx : Context) : Except PyExn (Response × List RemoteCall) :=
  let http_method := event.httpMethod.getD "GET"
  match clientInit with
  | Except.error e =>
      Except.ok (create_error_response 500 "Failed to initialize GameLift client"
        (Option.some e) ctx, [])
  | Except.ok gamelift_client =>
    if http_method = "GET" then
      Except.ok (handle_list_fleets gamelift_client ctx)
    else if http_method = "POST" then
      let body_data := bodyDataOf event
      match pyGetD body_data "action" (PyVal.str "list_fleets") with
      | Except.error exn => Except.error exn
      | Except.ok action =>
        if pyEqStr action "list_fleets" then
          Except.ok (handle_list_fleets gamelift_client ctx)
        else if pyEqStr action "describe_fleet" then
          match pyGetD body_data "fleet_id" PyVal.none with
          | Except.error exn => Except.error exn
          | Except.ok fleet_id =>
            if ¬ pyTruthy fleet_id then
              Except.ok (create_error_response 400 "Missing required parameter: fleet_id"
                Option.none ctx, [])
            else
              Except.ok (handle_describe_fleet gamelift_client fleet_id ctx)
        else
          Except.ok (create_error_response 400 ("Unknown action: " ++ pyStr action)
            Option.none ctx, [])
    else
      Except.ok (create_error_response 405 ("Method " ++ http_method ++ " not supported")
        Option.none ctx, [])

end gamelift_handler

namespace handler

/-- Model of `lambda_handler` in `handler.py` (the Demo Handler).  It
performs no remote call and — on the modelled value fragment — no operation
in it can raise, hence every branch is `Except.ok`; the `Except` is kept to
state that no exception escapes. -/
def lambda_handler (env : Env) (event : Event) (ctx : Context) :
    Except PyExn Response :=
  let environment := env.environment.getD "unknown"
  let project := env.project.getD "unknown"
  let http_method := event.httpMethod.getD "GET"
  let path := event.path.getD "/"
  if http_method = "GET" then
    Except.ok
      { statusCode := 200,
        headers := corsHeaders,
        body := PyVal.dict
          [("status", PyVal.str "success"),
           ("message", PyVal.str "Python Lambda is running!"),
           ("environment", PyVal.str environment),
           ("project", PyVal.str project),
           ("method", PyVal.str http_method),
           ("path", PyVal.str path),
           ("timestamp", PyVal.str (timestampOf ctx))] }
  else if http_method = "POST" then
    let body_data := bodyDataOf event
    Except.ok
      { statusCode := 200,
        headers := corsHeaders,
        body := PyVal.dict
          [("status", PyVal.str "success"),
           ("message", PyVal.str "POST request received"),
           ("environment", PyVal.str environment),
           ("project", PyVal.str project),
           ("received_data", body_data),
           ("timestamp", PyVal.str (timestampOf ctx))] }
  else
    Except.ok
      { statusCode := 405,
        headers := corsHeaders,
        body := PyVal.dict
          [("status", PyVal.str "error"),
           ("message", PyVal.str ("Method " ++ http_method ++ " not supported")),
           ("supported_methods", PyVal.list [PyVal.str "GET", PyVal.str "POST"])] }

/-- Model of `health_check` in `handler.py`: ignores event and context
entirely. -/
def health_check (envEnvironment : Option String) (event : Event) (ctx : Context) :
    Response :=
  { statusCode := 200,
    headers := [("Content-Type", "application/json")],
    body := PyVal.dict
      [("status", PyVal.str "healthy"),
       ("service", PyVal.str "python-lambda"),
       ("environment", PyVal.str (envEnvironment.getD "unknown"))] }

end handler

/-! ## Accessors and fixtures used by the statements -/

/-- Look up a key of a response body (the dict passed to `json.dumps`). -/
def bodyField (r : Response) (k : String) : Option PyVal :=
  match r.body with
  | PyVal.dict kvs => kvs.lookup k
  | _ => Option.none

/-- The keys of a response body, in insertion order. -/
def bodyKeys (r : Response) : List String :=
  match r.body with
  | PyVal.dict kvs => kvs.map Prod.fst
  | _ => []

/-- Whether `needle` occurs at the start of `hay`. -/
def startsWithL : List Char → List Char → Bool
  | _, [] => true
  | [], _ :: _ => false
  | a :: as, b :: bs => a = b && startsWithL as bs

/-- Whether `needle` occurs contiguously anywhere in `hay`. -/
def hasSubL : List Char → List Char → Bool
  | [], needle => needle.isEmpty
  | a :: rest, needle => startsWithL (a :: rest) needle || hasSubL rest needle

/-- Substring containment on strings. -/
def strContains (hay needle : String) : Bool := hasSubL hay.toList needle.toList

/-- Whether a Python value is a dict (a mapping). -/
def isDictV : PyVal → Bool
  | PyVal.dict _ => true
  | _ => false

/-- An environment with no variables set (all defaults apply). -/
def emptyEnv : Env := ⟨Option.none, Option.none, Option.none⟩

/-- A context exposing a concrete request id. -/
def testCtx : Context := ⟨Option.some "test-request-id"⟩

/-- A stub remote client: no fleets, every describe finds nothing. -/
def stubClient : GameLiftClient :=
  { list_fleets := Except.ok ⟨[], Option.none⟩,
    describe_fleet_attributes := fun _ => Except.ok [] }

/-! ## Claims -/

/-- Claim C10 (confirmed): `health_check` is independent of both the event and
the context — under the same `ENVIRONMENT` value any two invocations return
identical responses: status code 200, body
`\x7bstatus:"healthy", service:"python-lambda", environment:<ENVIRONMENT or "unknown">\x7d`,
and headers containing only `Content-Type`. -/
theorem C10_health_check_independent (envEnvironment : Option String)
    (e1 : Event) (c1 : Context) (e2 : Event) (c2 : Context) :
    handler.health_check envEnvironment e1 c1 = handler.health_check envEnvironment e2 c2 ∧
    handler.health_check envEnvironment e1 c1 =
      { statusCode := 200,
        headers := [("Content-Type", "application/json")],
        body := PyVal.dict
          [("status", PyVal.str "healthy"),
           ("service", PyVal.str "python-lambda"),
           ("environment", PyVal.str (envEnvironment.getD "unknown"))] } :=
  ⟨rfl, rfl⟩

/-- Claim C9 (confirmed): the body built by `create_error_response` contains
the `details` key iff the `details` argument is a non-empty string; with
`None` or the empty string the keys are exactly `status`, `message`,
`timestamp`. -/
theorem C9_details_key_iff_truthy (status_code : Nat) (message : String)
    (details : Option String) (ctx : Context) :
    ("details" ∈ bodyKeys (gamelift_handler.create_error_response status_code message details ctx) ↔
      ∃ s, details = Option.some s ∧ s ≠ "") ∧
    ((details = Option.none ∨ details = Option.some "") →
      bodyKeys (gamelift_handler.create_error_response status_code message details ctx) =
        ["status", "message", "timestamp"]) := by
  rcases details with _ | d
  · constructor
    · simp [bodyKeys, gamelift_handler.create_error_response]
    · intro _; rfl
  · by_cases hd : d = ""
    · subst hd
      constructor
      · simp [bodyKeys, gamelift_handler.create_error_response]
      · intro _; rfl
    · constructor
      · simp [bodyKeys, gamelift_handler.create_error_response, hd]
      · intro h; rcases h with h | h <;> simp_all

/-- Closed instance of C9: with empty-string details the body keys are exactly
`status`, `message`, `timestamp` (no `details`). -/
theorem C9_details_key_iff_truthy_witness :
    bodyKeys (gamelift_handler.create_error_response 500 "m" (Option.some "") testCtx) =
      ["status", "message", "timestamp"] :=
  (C9_details_key_iff_truthy 500 "m" (Option.some "") testCtx).2 (Or.inr rfl)

/-- Claim C4 (confirmed): the Fleet Handler on
`\x7b"httpMethod":"POST","body":"\x7b\"action\":\"unknown_action\"\x7d"\x7d`
returns status 400 with a message containing `unknown_action` (the message
names the offending action value). -/
theorem C4_unknown_action_scenario :
    gamelift_handler.lambda_handler emptyEnv (Except.ok stubClient)
      ⟨Option.some "POST", Option.none,
       Option.some (PyVal.str "\x7b\"action\":\"unknown_action\"\x7d")⟩ testCtx =
      Except.ok (gamelift_handler.create_error_response 400
        "Unknown action: unknown_action" Option.none testCtx, []) ∧
    (gamelift_handler.create_error_response 400
      "Unknown action: unknown_action" Option.none testCtx).statusCode = 400 ∧
    bodyField (gamelift_handler.create_error_response 400
      "Unknown action: unknown_action" Option.none testCtx) "message" =
      Option.some (PyVal.str "Unknown action: unknown_action") ∧
    strContains "Unknown action: unknown_action" "unknown_action" = true :=
  ⟨rfl, rfl, rfl, rfl⟩

/-- Claim C8 (confirmed): any method other than GET and POST yields 405 on
both handlers, with an error body whose message names the method; the Demo
405 body of the Demo Handler has exactly the keys `status`, `message`,
`supported_methods` (so no `timestamp` or `details`), built without the
shared error-response builder. -/
theorem C8_unsupported_method (env : Env) (client : GameLiftClient) (ctx : Context)
    (m : String) (p : Option String) (b : Option PyVal)
    (hg : m ≠ "GET") (hp : m ≠ "POST") :
    handler.lambda_handler env ⟨Option.some m, p, b⟩ ctx =
      Except.ok
        { statusCode := 405,
          headers := corsHeaders,
          body := PyVal.dict
            [("status", PyVal.str "error"),
             ("message", PyVal.str ("Method " ++ m ++ " not supported")),
             ("supported_methods", PyVal.list [PyVal.str "GET", PyVal.str "POST"])] } ∧
    gamelift_handler.lambda_handler env (Except.ok client) ⟨Option.some m, p, b⟩ ctx =
      Except.ok (gamelift_handler.create_error_response 405
        ("Method " ++ m ++ " not supported") Option.none ctx, []) ∧
    (gamelift_handler.create_error_response 405
      ("Method " ++ m ++ " not supported") Option.none ctx).statusCode = 405 ∧
    bodyField (gamelift_handler.create_error_response 405
      ("Method " ++ m ++ " not supported") Option.none ctx) "status" =
      Option.some (PyVal.str "error") ∧
    bodyKeys
      { statusCode := 405,
        headers := corsHeaders,
        body := PyVal.dict
          [("status", PyVal.str "error"),
           ("message", PyVal.str ("Method " ++ m ++ " not supported")),
           ("supported_methods", PyVal.list [PyVal.str "GET", PyVal.str "POST"])] } =
      ["status", "message", "supported_methods"] := by
  refine ⟨?_, ?_, rfl, rfl, rfl⟩
  · simp [handler.lambda_handler, hg, hp]
  · simp [gamelift_handler.lambda_handler, hg, hp]

/-- Closed instance of C8 at method DELETE. -/
theorem C8_unsupported_method_witness :
    handler.lambda_handler emptyEnv ⟨Option.some "DELETE", Option.none, Option.none⟩ testCtx =
      Except.ok
        { statusCode := 405,
          headers := corsHeaders,
          body := PyVal.dict
            [("status", PyVal.str "error"),
             ("message", PyVal.str ("Method " ++ "DELETE" ++ " not supported")),
             ("supported_methods", PyVal.list [PyVal.str "GET", PyVal.str "POST"])] } ∧
    gamelift_handler.lambda_handler emptyEnv (Except.ok stubClient)
      ⟨Option.some "DELETE", Option.none, Option.none⟩ testCtx =
      Except.ok (gamelift_handler.create_error_response 405
        ("Method " ++ "DELETE" ++ " not supported") Option.none testCtx, []) :=
  ⟨(C8_unsupported_method emptyEnv stubClient testCtx "DELETE" Option.none Option.none
      (by decide) (by decide)).1,
   (C8_unsupported_method emptyEnv stubClient testCtx "DELETE" Option.none Option.none
      (by decide) (by decide)).2.1⟩

/-- Claim C7 (confirmed): a GET request to the Fleet Handler whose remote
list-fleets call succeeds yields 200 with body status `success`, operation
`list_fleets`, `fleets` the fleet-id sequence of the remote in order,
`fleet_count` its length, and `next_token` null (`None`) when the remote
supplies no continuation token. -/
theorem C7_list_fleets_success (env : Env) (client : GameLiftClient) (ctx : Context)
    (event : Event) (r : ListFleetsResult)
    (hm : event.httpMethod.getD "GET" = "GET")
    (hl : client.list_fleets = Except.ok r) :
    gamelift_handler.lambda_handler env (Except.ok client) event ctx =
      Except.ok
        ({ statusCode := 200,
           headers := corsHeaders,
           body := PyVal.dict
             [("status", PyVal.str "success"),
              ("operation", PyVal.str "list_fleets"),
              ("fleet_count", PyVal.int r.FleetIds.length),
              ("fleets", PyVal.list (r.FleetIds.map PyVal.str)),
              ("next_token", optStrVal r.NextToken),
              ("timestamp", PyVal.str (timestampOf ctx))] },
         [RemoteCall.listFleets]) ∧
    (r.NextToken = Option.none → optStrVal r.NextToken = PyVal.none) := by
  constructor
  · simp [gamelift_handler.lambda_handler, hm, gamelift_handler.handle_list_fleets, hl]
  · intro h; simp [h, optStrVal]

/-- Closed instance of C7: GET with a two-fleet remote result. -/
theorem C7_list_fleets_success_witness :
    gamelift_handler.lambda_handler emptyEnv
      (Except.ok
        { list_fleets := Except.ok ⟨["fleet-a", "fleet-b"], Option.none⟩,
          describe_fleet_attributes := fun _ => Except.ok [] })
      ⟨Option.some "GET", Option.none, Option.none⟩ testCtx =
      Except.ok
        ({ statusCode := 200,
           headers := corsHeaders,
           body := PyVal.dict
             [("status", PyVal.str "success"),
              ("operation", PyVal.str "list_fleets"),
              ("fleet_count", PyVal.int (["fleet-a", "fleet-b"] : List String).length),
              ("fleets", PyVal.list ((["fleet-a", "fleet-b"] : List String).map PyVal.str)),
              ("next_token", optStrVal Option.none),
              ("timestamp", PyVal.str (timestampOf testCtx))] },
         [RemoteCall.listFleets]) :=
  (C7_list_fleets_success emptyEnv
    { list_fleets := Except.ok ⟨["fleet-a", "fleet-b"], Option.none⟩,
      describe_fleet_attributes := fun _ => Except.ok [] }
    testCtx ⟨Option.some "GET", Option.none, Option.none⟩
    ⟨["fleet-a", "fleet-b"], Option.none⟩ rfl rfl).1

/-- Claim C6 (confirmed): a `describe_fleet` request whose remote
describe-fleet-attributes call succeeds with an empty record collection
yields 404 with body status `error` and a message containing the requested
fleet id. -/
theorem C6_describe_absent_fleet (env : Env) (client : GameLiftClient) (ctx : Context)
    (event : Event) (d : List (String × PyVal)) (fid : String)
    (hm : event.httpMethod = Option.some "POST")
    (hb : bodyDataOf event = PyVal.dict d)
    (ha : d.lookup "action" = Option.some (PyVal.str "describe_fleet"))
    (hf : d.lookup "fleet_id" = Option.some (PyVal.str fid))
    (hne : fid ≠ "")
    (hd : client.describe_fleet_attributes (PyVal.str fid) = Except.ok []) :
    gamelift_handler.lambda_handler env (Except.ok client) event ctx =
      Except.ok (gamelift_handler.create_error_response 404
        ("Fleet not found: " ++ fid) Option.none ctx,
        [RemoteCall.describeFleetAttributes (PyVal.str fid)]) ∧
    (gamelift_handler.create_error_response 404
      ("Fleet not found: " ++ fid) Option.none ctx).statusCode = 404 ∧
    bodyField (gamelift_handler.create_error_response 404
      ("Fleet not found: " ++ fid) Option.none ctx) "status" =
      Option.some (PyVal.str "error") ∧
    bodyField (gamelift_handler.create_error_response 404
      ("Fleet not found: " ++ fid) Option.none ctx) "message" =
      Option.some (PyVal.str ("Fleet not found: " ++ fid)) := by
  refine ⟨?_, rfl, rfl, rfl⟩
  simp [gamelift_handler.lambda_handler, hm, hb, pyGetD, ha, hf, pyEqStr, pyTruthy, hne,
    gamelift_handler.handle_describe_fleet, hd, pyStr]

/-- Closed instance of C6 at fleet id `fleet-123` (the scenario of the spec). -/
theorem C6_describe_absent_fleet_witness :
    gamelift_handler.lambda_handler emptyEnv (Except.ok stubClient)
      ⟨Option.some "POST", Option.none,
       Option.some (PyVal.str
         "\x7b\"action\":\"describe_fleet\",\"fleet_id\":\"fleet-123\"\x7d")⟩ testCtx =
      Except.ok (gamelift_handler.create_error_response 404
        ("Fleet not found: " ++ "fleet-123") Option.none testCtx,
        [RemoteCall.describeFleetAttributes (PyVal.str "fleet-123")]) :=
  (C6_describe_absent_fleet emptyEnv stubClient testCtx
    ⟨Option.some "POST", Option.none,
     Option.some (PyVal.str
       "\x7b\"action\":\"describe_fleet\",\"fleet_id\":\"fleet-123\"\x7d")⟩
    [("action", PyVal.str "describe_fleet"), ("fleet_id", PyVal.str "fleet-123")]
    "fleet-123" rfl rfl rfl rfl (by decide) rfl).1

/-- Claim C5 (confirmed): a `describe_fleet` request whose body carries no
`fleet_id` yields status 400 with message
`Missing required parameter: fleet_id` and issues no remote call. -/
theorem C5_describe_missing_fleet_id (env : Env) (client : GameLiftClient) (ctx : Context)
    (event : Event) (d : List (String × PyVal))
    (hm : event.httpMethod = Option.some "POST")
    (hb : bodyDataOf event = PyVal.dict d)
    (ha : d.lookup "action" = Option.some (PyVal.str "describe_fleet"))
    (hf : d.lookup "fleet_id" = Option.none) :
    gamelift_handler.lambda_handler env (Except.ok client) event ctx =
      Except.ok (gamelift_handler.create_error_response 400
        "Missing required parameter: fleet_id" Option.none ctx, []) ∧
    (gamelift_handler.create_error_response 400
      "Missing required parameter: fleet_id" Option.none ctx).statusCode = 400 ∧
    bodyField (gamelift_handler.create_error_response 400
      "Missing required parameter: fleet_id" Option.none ctx) "message" =
      Option.some (PyVal.str "Missing required parameter: fleet_id") := by
  refine ⟨?_, rfl, rfl⟩
  simp [gamelift_handler.lambda_handler, hm, hb, pyGetD, ha, hf, pyEqStr, pyTruthy]

/-- Closed instance of C5: `describe_fleet` with no `fleet_id` in the body. -/
theorem C5_describe_missing_fleet_id_witness :
    gamelift_handler.lambda_handler emptyEnv (Except.ok stubClient)
      ⟨Option.some "POST", Option.none,
       Option.some (PyVal.str "\x7b\"action\":\"describe_fleet\"\x7d")⟩ testCtx =
      Except.ok (gamelift_handler.create_error_response 400
        "Missing required parameter: fleet_id" Option.none testCtx, []) :=
  (C5_describe_missing_fleet_id emptyEnv stubClient testCtx
    ⟨Option.some "POST", Option.none,
     Option.some (PyVal.str "\x7b\"action\":\"describe_fleet\"\x7d")⟩
    [("action", PyVal.str "describe_fleet")] rfl rfl rfl rfl).1

/-- Counterexample to C3 as stated: on the unknown-action scenario of the
spec itself the response of the Fleet Handler carries status code 400, not 405 — the unknown
action is not classed with unsupported HTTP verbs. -/
theorem C3_unknown_action_counterexample :
    (gamelift_handler.lambda_handler emptyEnv (Except.ok stubClient)
      ⟨Option.some "POST", Option.none,
       Option.some (PyVal.str "\x7b\"action\":\"unknown_action\"\x7d")⟩ testCtx).map
      (fun pr => pr.1.statusCode) = Except.ok 400 ∧ (400 : Nat) ≠ 405 :=
  ⟨rfl, by decide⟩

/-- Claim C3 (amended): a POST whose parsed body carries an `action` other
than `list_fleets` and `describe_fleet` yields a 400 error response (built by
the shared error builder, like the missing-parameter case) whose message
names the offending action — not a 405. -/
theorem C3_unknown_action_is_400 (env : Env) (client : GameLiftClient) (ctx : Context)
    (p : Option String) (d : List (String × PyVal)) (a : String)
    (ha : d.lookup "action" = Option.some (PyVal.str a))
    (h1 : a ≠ "list_fleets") (h2 : a ≠ "describe_fleet") :
    gamelift_handler.lambda_handler env (Except.ok client)
      ⟨Option.some "POST", p, Option.some (PyVal.dict d)⟩ ctx =
      Except.ok (gamelift_handler.create_error_response 400
        ("Unknown action: " ++ a) Option.none ctx, []) ∧
    (gamelift_handler.create_error_response 400
      ("Unknown action: " ++ a) Option.none ctx).statusCode = 400 ∧
    bodyField (gamelift_handler.create_error_response 400
      ("Unknown action: " ++ a) Option.none ctx) "message" =
      Option.some (PyVal.str ("Unknown action: " ++ a)) := by
  refine ⟨?_, rfl, rfl⟩
  simp [gamelift_handler.lambda_handler, bodyDataOf, pyGetD, ha, pyEqStr, h1, h2, pyStr]

/-- Closed instance of the amended C3, with the action passed as a mapping
body. -/
theorem C3_unknown_action_is_400_witness :
    gamelift_handler.lambda_handler emptyEnv (Except.ok stubClient)
      ⟨Option.some "POST", Option.none,
       Option.some (PyVal.dict [("action", PyVal.str "restart_fleet")])⟩ testCtx =
      Except.ok (gamelift_handler.create_error_response 400
        ("Unknown action: " ++ "restart_fleet") Option.none testCtx, []) :=
  (C3_unknown_action_is_400 emptyEnv stubClient testCtx Option.none
    [("action", PyVal.str "restart_fleet")] "restart_fleet" rfl
    (by decide) (by decide)).1

/-- Counterexample to C2 as stated: a POST whose body is the JSON text `42`
(a parsed non-mapping value) makes the Fleet Handler raise an uncaught
`AttributeError` — the failure escapes to the hosting runtime instead of
being converted to an error envelope. -/
theorem C2_uncaught_fault_counterexample :
    gamelift_handler.lambda_handler emptyEnv (Except.ok stubClient)
      ⟨Option.some "POST", Option.none, Option.some (PyVal.str "42")⟩ testCtx =
      Except.error PyExn.attributeError ∧
    (gamelift_handler.lambda_handler emptyEnv (Except.ok stubClient)
      ⟨Option.some "POST", Option.none, Option.some (PyVal.str "42")⟩ testCtx).isOk =
      false :=
  ⟨rfl, rfl⟩

/-- Claim C2 (amended): the Fleet Handler returns a response envelope — no
exception escapes — for every invocation whose method is not POST or whose
POST body data is a mapping; only a POST body that is (or parses to) a
non-mapping value escapes as an uncaught fault. -/
theorem C2_no_fault_on_mapping_bodies (env : Env)
    (clientInit : Except String GameLiftClient) (event : Event) (ctx : Context)
    (h : event.httpMethod.getD "GET" = "POST" → isDictV (bodyDataOf event) = true) :
    (gamelift_handler.lambda_handler env clientInit event ctx).isOk = true := by
  rcases clientInit with e | client
  · rfl
  · by_cases hg : event.httpMethod.getD "GET" = "GET"
    · simp [gamelift_handler.lambda_handler, hg, Except.isOk, Except.toBool]
    · by_cases hp : event.httpMethod.getD "GET" = "POST"
      · have hd := h hp
        rcases hbd : bodyDataOf event with _ | _ | _ | _ | _ | kvs <;>
          rw [hbd] at hd <;> simp [isDictV] at hd
        simp [gamelift_handler.lambda_handler, hg, hp, hbd, pyGetD]
        split <;> first | rfl | (split <;> first | rfl | (split <;> rfl))
      · simp [gamelift_handler.lambda_handler, hg, hp, Except.isOk, Except.toBool]

/-- Closed instance of the amended C2: a GET invocation returns a response. -/
theorem C2_no_fault_on_mapping_bodies_witness :
    (gamelift_handler.lambda_handler emptyEnv (Except.ok stubClient)
      ⟨Option.some "GET", Option.none, Option.none⟩ testCtx).isOk = true :=
  C2_no_fault_on_mapping_bodies emptyEnv (Except.ok stubClient)
    ⟨Option.some "GET", Option.none, Option.none⟩ testCtx (by decide)

/-- Counterexample to C1 as stated: a POST to the Fleet Handler whose body is
an explicit null raises an uncaught `AttributeError` instead of returning a
normal response envelope. -/
theorem C1_null_body_counterexample :
    gamelift_handler.lambda_handler emptyEnv (Except.ok stubClient)
      ⟨Option.some "POST", Option.none, Option.some PyVal.none⟩ testCtx =
      Except.error PyExn.attributeError ∧
    (gamelift_handler.lambda_handler emptyEnv (Except.ok stubClient)
      ⟨Option.some "POST", Option.none, Option.some PyVal.none⟩ testCtx).isOk =
      false :=
  ⟨rfl, rfl⟩

/-- Claim C1 (amended): a POST whose body is absent, or is a string that
fails to parse as JSON, is treated as an empty mapping by both handlers and
raises no exception (the Demo Handler echoes the empty mapping, the Fleet
Handler falls through to the default `list_fleets` action); an explicit null
or a parsed non-mapping body value, however, makes the Fleet Handler raise an
uncaught `AttributeError`. -/
theorem C1_bad_body_empty_mapping (env : Env) (client : GameLiftClient)
    (ctx : Context) (p : Option String) (b : Option PyVal)
    (h : b = Option.none ∨
      ∃ s, b = Option.some (PyVal.str s) ∧ jsonLoads s = Except.error ()) :
    bodyDataOf ⟨Option.some "POST", p, b⟩ = PyVal.dict [] ∧
    handler.lambda_handler env ⟨Option.some "POST", p, b⟩ ctx =
      Except.ok
        { statusCode := 200,
          headers := corsHeaders,
          body := PyVal.dict
            [("status", PyVal.str "success"),
             ("message", PyVal.str "POST request received"),
             ("environment", PyVal.str (env.environment.getD "unknown")),
             ("project", PyVal.str (env.project.getD "unknown")),
             ("received_data", PyVal.dict []),
             ("timestamp", PyVal.str (timestampOf ctx))] } ∧
    gamelift_handler.lambda_handler env (Except.ok client)
      ⟨Option.some "POST", p, b⟩ ctx =
      Except.ok (gamelift_handler.handle_list_fleets client ctx) := by
  have hb : bodyDataOf ⟨Option.some "POST", p, b⟩ = PyVal.dict [] := by
    rcases h with h | ⟨s, hs, he⟩
    · subst h; rfl
    · subst hs; simp [bodyDataOf, he]
  refine ⟨hb, ?_, ?_⟩
  · simp [handler.lambda_handler, hb]
  · simp [gamelift_handler.lambda_handler, hb, pyGetD, pyEqStr]

/-- Closed instance of the amended C1: an unparsable string body falls
through to the default `list_fleets` action on the Fleet Handler. -/
theorem C1_bad_body_empty_mapping_witness :
    gamelift_handler.lambda_handler emptyEnv (Except.ok stubClient)
      ⟨Option.some "POST", Option.none, Option.some (PyVal.str "not json")⟩ testCtx =
      Except.ok (gamelift_handler.handle_list_fleets stubClient testCtx) :=
  (C1_bad_body_empty_mapping emptyEnv stubClient testCtx Option.none
    (Option.some (PyVal.str "not json")) (Or.inr ⟨"not json", rfl, rfl⟩)).2.2

